import Mathlib

/-!
Shallow embedding of `advanced_progress_bot.py` (leyangloh/FakeProgress).

The program is a single-pipeline Slack progress reporter: discover GitHub
milestones, fetch per-milestone counters, format Slack blocks, deliver one
message.  HTTP exchanges are modelled by explicit oracle arguments
(`Except`-valued responses); `print` logging is modelled by returned lists of
strings; Slack block dictionaries are modelled by a small JSON-like inductive.
Python floats are modelled by `ℚ`.
-/

namespace FakeProgress

/-- JSON-like values, modelling the Python dicts used for Slack blocks. -/
inductive J where
  | str (s : String) : J
  | bool (b : Bool) : J
  | arr (elems : List J) : J
  | obj (fields : List (String × J)) : J

/-- `ProjectConfig` dataclass (source lines 26–34). -/
structure ProjectConfig where
  name : String
  repo_owner : String
  repo_name : String
  milestone_number : ℕ
  emoji : String
  color : String
deriving DecidableEq, Repr

/-- One element of the GitHub list-milestones response used by
`discover_all_milestones` (fields read at lines 96–115). -/
structure MilestoneListing where
  title : String
  number : ℕ
  state : String
  open_issues : ℕ
deriving DecidableEq, Repr

/-- The GitHub get-milestone response body used by `get_milestone_data`
(fields read at lines 141–159).  `description` and `due_on` may be JSON null. -/
structure RawMilestone where
  title : String
  description : Option String
  open_issues : ℕ
  closed_issues : ℕ
  due_on : Option String
  html_url : String
  created_at : String
  updated_at : String
  state : String
deriving DecidableEq, Repr

/-- The dictionary returned by `get_milestone_data` (lines 147–159). -/
structure MilestoneData where
  title : String
  description : Option String
  total_issues : ℕ
  closed_issues : ℕ
  open_issues : ℕ
  progress_percentage : ℚ
  due_date : Option String
  html_url : String
  created_at : String
  updated_at : String
  state : String
deriving DecidableEq, Repr

/-- Acknowledgment object returned by Slack `chat.postMessage`
(fields read at lines 393–398). -/
structure SlackResult where
  ok : Bool
  error : Option String
deriving DecidableEq, Repr

/-- Fields of a parsed datetime, as used by the `strftime` calls. -/
structure DateTimeFields where
  year : ℕ
  month : ℕ
  day : ℕ
  hour : ℕ
  minute : ℕ
deriving DecidableEq, Repr

/-- Month names, for `strftime` directive `%B`. -/
def month_names : List String :=
  ["January", "February", "March", "April", "May", "June", "July",
   "August", "September", "October", "November", "December"]

/-- Zero-padded two-digit rendering (`%d`, `%I`, `%M`). -/
def two_digit (n : ℕ) : String :=
  if n < 10 then "0" ++ toString n else toString n

/-- `datetime.fromisoformat` on an ISO-8601 timestamp such as
`2024-05-01T10:30:00Z` (after the source's `.replace('Z', '+00:00')`),
restricted to the positional fields the program's `strftime` calls read. -/
def parse_iso (s : String) : DateTimeFields :=
  { year := ((s.take 4).toNat?).getD 0
    month := (((s.drop 5).take 2).toNat?).getD 0
    day := (((s.drop 8).take 2).toNat?).getD 0
    hour := (((s.drop 11).take 2).toNat?).getD 0
    minute := (((s.drop 14).take 2).toNat?).getD 0 }

/-- `strftime('%B %d, %Y')` (lines 276, 364). -/
def format_date_long (d : DateTimeFields) : String :=
  (month_names.getD (d.month - 1) "") ++ " " ++ two_digit d.day ++ ", " ++ toString d.year

/-- `strftime('%B %d, %Y at %I:%M %p')` (lines 279, 466). -/
def format_date_time (d : DateTimeFields) : String :=
  let h12 := if d.hour % 12 = 0 then 12 else d.hour % 12
  let ampm := if d.hour < 12 then "AM" else "PM"
  format_date_long d ++ " at " ++ two_digit h12 ++ ":" ++ two_digit d.minute ++ " " ++ ampm

/-- Round half to even, as Python's `format` rounds a decimal digit. -/
def round_half_even (q : ℚ) : ℤ :=
  if q - ⌊q⌋ < 1/2 then ⌊q⌋
  else if 1/2 < q - ⌊q⌋ then ⌊q⌋ + 1
  else if ⌊q⌋ % 2 = 0 then ⌊q⌋ else ⌊q⌋ + 1

/-- Python `f"{x:.1f}"`: one-decimal fixed-point rendering. -/
def format_one_decimal (q : ℚ) : String :=
  let n := round_half_even (q * 10)
  let sign := if n < 0 then "-" else ""
  sign ++ toString (n.natAbs / 10) ++ "." ++ toString (n.natAbs % 10)

/-- Python `int(...)`: truncation toward zero. -/
def int_trunc (q : ℚ) : ℤ :=
  if 0 ≤ q then ⌊q⌋ else -⌊-q⌋

/-- Filled-cell character of the progress bar (line 180). -/
def filled_char : Char := '█'

/-- Empty-cell character of the progress bar (line 181). -/
def empty_char : Char := '░'

/-- `ProgressBot.create_progress_bar` (lines 165–183).  Python string
repetition with a negative count yields the empty string, hence `Int.toNat`. -/
def create_progress_bar (percentage : ℚ) (width : ℕ) : String :=
  let filled := int_trunc (percentage / 100 * width)
  let empty := (width : ℤ) - filled
  String.mk (List.replicate filled.toNat filled_char ++ List.replicate empty.toNat empty_char)

/-- `ProgressBot.get_status_emoji` (lines 185–196). -/
def get_status_emoji (percentage : ℚ) : String :=
  if percentage ≥ 100 then "✅"
  else if percentage ≥ 75 then "🟢"
  else if percentage ≥ 50 then "🟡"
  else if percentage ≥ 25 then "🟠"
  else "🔴"

/-- `ProgressBot.get_trend_indicator` (lines 198–208). -/
def get_trend_indicator (current : ℚ) (previous : Option ℚ) : String :=
  match previous with
  | none => "📊"
  | some prev =>
      if current > prev then "📈"
      else if current < prev then "📉"
      else "➡️"

/-- Emoji palette `emoji_map` of `discover_all_milestones` (lines 87–94). -/
def emoji_map : List String := ["🚀", "🔬", "📊", "🎯", "🏆", "⭐"]

/-- Color assignment of `discover_all_milestones` (lines 100–106). -/
def assign_color (state : String) (open_issues : ℕ) : String :=
  if state = "closed" then "#28a745"
  else if open_issues = 0 then "#ffc107"
  else "#007bff"

/-- Body of the discovery loop (lines 96–116): one `ProjectConfig` per
enumerated milestone. -/
def discovered_config (owner repo : String) (i : ℕ) (m : MilestoneListing) : ProjectConfig :=
  { name := m.title
    repo_owner := owner
    repo_name := repo
    milestone_number := m.number
    emoji := emoji_map.getD (i % emoji_map.length) "📋"
    color := assign_color m.state m.open_issues }

/-- `ProgressBot.discover_all_milestones` (lines 70–123): the GitHub
list-milestones exchange is an `Except` oracle; returns configs and log. -/
def discover_all_milestones (owner repo : String)
    (resp : Except String (List MilestoneListing)) :
    List ProjectConfig × List String :=
  match resp with
  | .ok ms =>
      let configs := ms.enum.map fun im => discovered_config owner repo im.1 im.2
      (configs,
       ["🔍 Discovered " ++ toString configs.length ++ " milestones in "
          ++ owner ++ "/" ++ repo])
  | .error e => ([], ["❌ Error discovering milestones: " ++ e])

/-- Lines 143–145: `progress_percentage = (closed_issues / total_issues * 100)
if total_issues > 0 else 0`, with `total_issues = open_issues + closed_issues`. -/
def milestone_percentage (open_issues closed_issues : ℕ) : ℚ :=
  if open_issues + closed_issues > 0 then
    (closed_issues : ℚ) / ((open_issues + closed_issues : ℕ) : ℚ) * 100
  else 0

/-- `ProgressBot.get_milestone_data` (lines 125–163): the GitHub
get-milestone exchange is an `Except` oracle; returns the data dict (or
`None` on failure) and log. -/
def get_milestone_data (resp : Except String RawMilestone)
    (project : ProjectConfig) : Option MilestoneData × List String :=
  match resp with
  | .ok m =>
      let total_issues := m.open_issues + m.closed_issues
      let closed_issues := m.closed_issues
      let progress_percentage := milestone_percentage m.open_issues m.closed_issues
      (some
        { title := m.title
          description := m.description
          total_issues := total_issues
          closed_issues := closed_issues
          open_issues := m.open_issues
          progress_percentage := progress_percentage
          due_date := m.due_on
          html_url := m.html_url
          created_at := m.created_at
          updated_at := m.updated_at
          state := m.state }, [])
  | .error e =>
      (none, ["❌ Error fetching milestone data for " ++ project.name ++ ": " ++ e])

/-- A `{"type": "mrkdwn", "text": s}` dict. -/
def mrkdwn (s : String) : J := J.obj [("type", J.str "mrkdwn"), ("text", J.str s)]

/-- A `{"type": "divider"}` dict. -/
def divider : J := J.obj [("type", J.str "divider")]

/-- A `{"type": "header", ...}` dict with plain text `s`. -/
def header_of (s : String) : J :=
  J.obj [("type", J.str "header"),
         ("text", J.obj [("type", J.str "plain_text"), ("text", J.str s),
                         ("emoji", J.bool true)])]

/-- `ProgressBot.create_project_block` (lines 210–322). -/
def create_project_block (project : ProjectConfig) (milestone_data : MilestoneData) :
    List J :=
  let progress_percentage := milestone_data.progress_percentage
  let progress_bar := create_progress_bar progress_percentage 20
  let header_block := header_of project.name
  let state_text := if milestone_data.state = "closed" then "Closed" else "Open"
  let progress_section :=
    J.obj [("type", J.str "section"),
           ("fields", J.arr
             [mrkdwn ("*Milestone:* <" ++ milestone_data.html_url ++ "|"
                        ++ milestone_data.title ++ ">"),
              mrkdwn ("*Status:* " ++ format_one_decimal progress_percentage
                        ++ "% Complete"),
              mrkdwn ("*Progress:* " ++ toString milestone_data.closed_issues ++ "/"
                        ++ toString milestone_data.total_issues ++ " issues"),
              mrkdwn ("*State:* " ++ state_text)])]
  let progress_bar_section :=
    J.obj [("type", J.str "section"),
           ("text", mrkdwn ("```" ++ progress_bar ++ "``` "
                              ++ format_one_decimal progress_percentage ++ "%"))]
  let info_text :=
    (if (milestone_data.description.getD "") ≠ "" then
        "📝 *Description:* " ++ milestone_data.description.getD "" ++ "\n"
      else "")
    ++ (if (milestone_data.due_date.getD "") ≠ "" then
          "📅 *Due Date:* "
            ++ format_date_long (parse_iso (milestone_data.due_date.getD "")) ++ "\n"
        else "")
    ++ "*Last Updated:* " ++ format_date_time (parse_iso milestone_data.updated_at)
  let info_section := J.obj [("type", J.str "section"), ("text", mrkdwn info_text)]
  let actions_block :=
    J.obj [("type", J.str "actions"),
           ("elements", J.arr
             [J.obj [("type", J.str "button"),
                     ("text", J.obj [("type", J.str "plain_text"),
                                     ("text", J.str "View Milestone"),
                                     ("emoji", J.bool true)]),
                     ("url", J.str milestone_data.html_url),
                     ("style", J.str "primary")],
              J.obj [("type", J.str "button"),
                     ("text", J.obj [("type", J.str "plain_text"),
                                     ("text", J.str "View Issues"),
                                     ("emoji", J.bool true)]),
                     ("url", J.str ("https://github.com/" ++ project.repo_owner ++ "/"
                        ++ project.repo_name ++ "/issues?q=milestone%3A"
                        ++ milestone_data.title))]])]
  [header_block, progress_section, progress_bar_section, info_section,
   actions_block, divider]

/-- Line 334: `total_milestones = len(milestones_data)`. -/
def summary_total (milestones_data : List (ProjectConfig × Option MilestoneData)) : ℕ :=
  milestones_data.length

/-- Line 335: count of pairs with data present and percentage ≥ 100. -/
def summary_completed
    (milestones_data : List (ProjectConfig × Option MilestoneData)) : ℕ :=
  milestones_data.countP fun x =>
    match x.2 with
    | some d => decide (d.progress_percentage ≥ 100)
    | none => false

/-- The numerator of line 336: sum of percentages over pairs with data present. -/
def summary_success_sum
    (milestones_data : List (ProjectConfig × Option MilestoneData)) : ℚ :=
  milestones_data.foldr
    (fun x acc => match x.2 with | some d => d.progress_percentage + acc | none => acc) 0

/-- Line 336: `avg_progress`, the success-only sum divided by the total pair
count, guarded by `total_milestones > 0`. -/
def summary_avg (milestones_data : List (ProjectConfig × Option MilestoneData)) : ℚ :=
  if summary_total milestones_data > 0 then
    summary_success_sum milestones_data / (summary_total milestones_data : ℚ)
  else 0

/-- `ProgressBot.create_summary_blocks` (lines 324–369); `now` models
`datetime.now()` at line 364. -/
def create_summary_blocks (now : DateTimeFields)
    (milestones_data : List (ProjectConfig × Option MilestoneData)) : List J :=
  let summary_header := header_of "Milestone Summary"
  let summary_section :=
    J.obj [("type", J.str "section"),
           ("fields", J.arr
             [mrkdwn ("*Total Milestones:* " ++ toString (summary_total milestones_data)),
              mrkdwn ("*Completed:* " ++ toString (summary_completed milestones_data)),
              mrkdwn ("*Average Progress:* "
                        ++ format_one_decimal (summary_avg milestones_data) ++ "%"),
              mrkdwn ("*Report Date:* " ++ format_date_long now)])]
  [summary_header, summary_section, divider]

/-- `ProgressBot.send_slack_message` (lines 371–403): the Slack exchange is an
`Except` oracle; returns the success flag and log.  The outcome branches only
on the response, as the source does. -/
def send_slack_message (resp : Except String SlackResult)
    (channel : String) (blocks : List J) : Bool × List String :=
  match resp with
  | .ok result =>
      if result.ok then (true, ["✅ Successfully sent progress report to Slack!"])
      else (false, ["❌ Slack API error: " ++ result.error.getD "Unknown error"])
  | .error e => (false, ["❌ Error sending Slack message: " ++ e])

/-- The `"type"` field of a block dict, as read by line 457's
`all_blocks[-1].get("type")`. -/
def j_type (b : J) : Option String :=
  match b with
  | J.obj fields =>
      match fields.lookup "type" with
      | some (J.str s) => some s
      | _ => none
  | _ => none

/-- Line 447–454: the error block and trailing divider substituted for a
group whose fetch failed. -/
def error_block (name : String) : J :=
  J.obj [("type", J.str "section"),
         ("text", mrkdwn ("❌ *" ++ name ++ "*\nFailed to fetch milestone data"))]

/-- Lines 442–454: fragment set for one `(milestone, milestone_data)` pair. -/
def fragment_for (pair : ProjectConfig × Option MilestoneData) : List J :=
  match pair.2 with
  | some d => create_project_block pair.1 d
  | none => [error_block pair.1.name, divider]

/-- Line 457's condition: the block list is nonempty and its last element's
`"type"` field is `"divider"`. -/
def ends_with_divider (l : List J) : Bool :=
  match l.getLast? with
  | some b => j_type b == some "divider"
  | none => false

/-- Footer block (lines 461–469); `now` models `datetime.now()` at line 466. -/
def footer_block (now : DateTimeFields) : J :=
  J.obj [("type", J.str "context"),
         ("elements", J.arr
           [mrkdwn ("📅 Generated on " ++ format_date_time now ++ " | 🤖 Progress Bot")])]

/-- Observable outcome of one `generate_weekly_report` run: the local
`milestones_data` list, the final `all_blocks` list, the payloads passed to
`send_slack_message` (one per invocation), the delivery success flag (`none`
when the run returned before delivery), and the printed log. -/
structure RunResult where
  pairs : List (ProjectConfig × Option MilestoneData)
  blocks : List J
  deliveries : List (List J)
  ok : Option Bool
  log : List String

/-- `ProgressBot.generate_weekly_report` (lines 405–478).  The three network
exchanges are oracle arguments; `now` models `datetime.now()`. -/
def generate_weekly_report (now : DateTimeFields) (owner repo channel : String)
    (discoResp : Except String (List MilestoneListing))
    (fetchResp : ProjectConfig → Except String RawMilestone)
    (slackResp : Except String SlackResult) : RunResult :=
  let disco := discover_all_milestones owner repo discoResp
  let milestones := disco.1
  let log0 := ["🚀 Generating weekly progress report...",
               "🔍 Auto-discovering milestones..."] ++ disco.2
  if milestones.isEmpty then
    { pairs := [], blocks := [], deliveries := [], ok := none,
      log := log0 ++ ["❌ No milestones found in the repository"] }
  else
    let pairs := milestones.map fun m => (m, (get_milestone_data (fetchResp m) m).1)
    let fetch_log := milestones.flatMap fun m =>
      ("📊 Fetching data for " ++ m.name ++ "...") :: (get_milestone_data (fetchResp m) m).2
    let project_header := header_of ("🚀 " ++ owner ++ "/" ++ repo ++ " - Weekly Progress")
    let with_body := (project_header :: create_summary_blocks now pairs)
      ++ pairs.flatMap fragment_for
    let trimmed :=
      if ends_with_divider with_body then with_body.dropLast else with_body
    let all_blocks := trimmed ++ [footer_block now]
    let sent := send_slack_message slackResp channel all_blocks
    let tracked := (pairs.filter fun x => x.2.isSome).length
    { pairs := pairs, blocks := all_blocks, deliveries := [all_blocks],
      ok := some sent.1,
      log := log0 ++ fetch_log ++ sent.2
        ++ [if sent.1 then
              "📈 Report sent! Tracked " ++ toString tracked ++ " milestones successfully."
            else "❌ Failed to send report."] }

/-- A concrete successful snapshot with the given percentage, used to probe
the summary computation. -/
def sample_data (pct : ℚ) : MilestoneData :=
  { title := "T", description := none, total_issues := 2, closed_issues := 1,
    open_issues := 1, progress_percentage := pct, due_date := none,
    html_url := "https://github.com/leyangloh/FakeProgress/milestone/1",
    created_at := "2024-01-01T00:00:00Z", updated_at := "2024-01-02T03:04:05Z",
    state := "open" }

/-- A concrete `ProjectConfig` with the given name. -/
def sample_project (n : String) : ProjectConfig :=
  { name := n, repo_owner := "leyangloh", repo_name := "FakeProgress",
    milestone_number := 1, emoji := "🚀", color := "#007bff" }

/-- Three groups where exactly one fetch failed: percentages 50 and 100
succeeded, the third is absent. -/
def three_groups_one_failed : List (ProjectConfig × Option MilestoneData) :=
  [(sample_project "A", some (sample_data 50)),
   (sample_project "B", some (sample_data 100)),
   (sample_project "C", none)]

/-- A fixed report time for concrete runs. -/
def sample_now : DateTimeFields := ⟨2024, 5, 1, 10, 30⟩

lemma milestone_percentage_eq (o c : ℕ) :
    milestone_percentage o c =
      (if 0 < c + o then (c : ℚ) / ((c : ℚ) + (o : ℚ)) * 100 else 0) := by
  unfold milestone_percentage
  rcases Nat.eq_zero_or_pos (o + c) with h | h
  · rw [if_neg (by omega), if_neg (by omega)]
  · rw [if_pos (by omega), if_pos (by omega)]
    push_cast
    ring_nf

lemma milestone_percentage_nonneg (o c : ℕ) : 0 ≤ milestone_percentage o c := by
  unfold milestone_percentage
  split_ifs with h
  · positivity
  · exact le_refl 0

lemma milestone_percentage_le_100 (o c : ℕ) : milestone_percentage o c ≤ 100 := by
  unfold milestone_percentage
  split_ifs with h
  · have ht : (0 : ℚ) < ((o + c : ℕ) : ℚ) := by exact_mod_cast h
    have hc : (c : ℚ) ≤ ((o + c : ℕ) : ℚ) := by
      push_cast
      linarith [Nat.cast_nonneg (α := ℚ) o]
    have hdiv : (c : ℚ) / ((o + c : ℕ) : ℚ) ≤ 1 := (div_le_one ht).mpr hc
    nlinarith
  · norm_num

/-- C2: for every fetched milestone with closed count `c` and open count `o`,
the fetch succeeds with a snapshot whose percentage is `c/(c+o)*100` when
`c+o > 0` and `0` when `c+o = 0`, and the percentage lies in `[0, 100]`. -/
theorem fetch_percentage_formula_and_bounds (p : ProjectConfig) (m : RawMilestone) :
    ∃ d, (get_milestone_data (Except.ok m) p).1 = some d ∧
      d.progress_percentage =
        (if 0 < m.closed_issues + m.open_issues then
          (m.closed_issues : ℚ) / ((m.closed_issues : ℚ) + (m.open_issues : ℚ)) * 100
         else 0) ∧
      0 ≤ d.progress_percentage ∧ d.progress_percentage ≤ 100 := by
  refine ⟨_, rfl, ?_, ?_, ?_⟩
  · show milestone_percentage m.open_issues m.closed_issues = _
    exact milestone_percentage_eq m.open_issues m.closed_issues
  · show 0 ≤ milestone_percentage m.open_issues m.closed_issues
    exact milestone_percentage_nonneg m.open_issues m.closed_issues
  · show milestone_percentage m.open_issues m.closed_issues ≤ 100
    exact milestone_percentage_le_100 m.open_issues m.closed_issues

/-- C3: for `0 ≤ p ≤ 100` and width `w > 0`, the progress bar has exactly
`⌊p/100·w⌋` filled cells, the rest empty, and total length exactly `w`. -/
theorem progress_bar_cell_counts (p : ℚ) (w : ℕ)
    (h0 : 0 ≤ p) (h1 : p ≤ 100) (hw : 0 < w) :
    (((create_progress_bar p w).toList.count filled_char : ℤ) = ⌊p / 100 * (w : ℚ)⌋) ∧
    (create_progress_bar p w).toList.count filled_char +
      (create_progress_bar p w).toList.count empty_char = w ∧
    (create_progress_bar p w).length = w := by
  have hq0 : (0 : ℚ) ≤ p / 100 * (w : ℚ) := by positivity
  have htrunc : int_trunc (p / 100 * (w : ℚ)) = ⌊p / 100 * (w : ℚ)⌋ := by
    rw [int_trunc, if_pos hq0]
  have hle : p / 100 * (w : ℚ) ≤ (w : ℚ) := by
    have h2 : p / 100 ≤ 1 := (div_le_one (by norm_num)).mpr h1
    calc p / 100 * (w : ℚ) ≤ 1 * (w : ℚ) :=
          mul_le_mul_of_nonneg_right h2 (Nat.cast_nonneg w)
      _ = (w : ℚ) := one_mul _
  have hF0 : 0 ≤ ⌊p / 100 * (w : ℚ)⌋ := Int.floor_nonneg.mpr hq0
  have hFw : ⌊p / 100 * (w : ℚ)⌋ ≤ (w : ℤ) := by
    calc ⌊p / 100 * (w : ℚ)⌋ ≤ ⌊(w : ℚ)⌋ := Int.floor_le_floor hle
      _ = (w : ℤ) := Int.floor_natCast w
  have key : (create_progress_bar p w).toList =
      List.replicate (⌊p / 100 * (w : ℚ)⌋).toNat filled_char ++
        List.replicate ((w : ℤ) - ⌊p / 100 * (w : ℚ)⌋).toNat empty_char := by
    simp only [create_progress_bar, htrunc, String.toList]
  have cross1 : List.count filled_char
      (List.replicate ((w : ℤ) - ⌊p / 100 * (w : ℚ)⌋).toNat empty_char) = 0 := by
    rw [List.count_eq_zero]
    intro hmem
    exact absurd (List.eq_of_mem_replicate hmem) (by decide)
  have cross2 : List.count empty_char
      (List.replicate (⌊p / 100 * (w : ℚ)⌋).toNat filled_char) = 0 := by
    rw [List.count_eq_zero]
    intro hmem
    exact absurd (List.eq_of_mem_replicate hmem) (by decide)
  have hcount1 : (create_progress_bar p w).toList.count filled_char =
      (⌊p / 100 * (w : ℚ)⌋).toNat := by
    rw [key, List.count_append, List.count_replicate_self, cross1]
    omega
  have hcount2 : (create_progress_bar p w).toList.count empty_char =
      ((w : ℤ) - ⌊p / 100 * (w : ℚ)⌋).toNat := by
    rw [key, List.count_append, List.count_replicate_self, cross2]
    omega
  have hlen : (create_progress_bar p w).length =
      (⌊p / 100 * (w : ℚ)⌋).toNat + ((w : ℤ) - ⌊p / 100 * (w : ℚ)⌋).toNat := by
    show (create_progress_bar p w).toList.length = _
    rw [key, List.length_append, List.length_replicate, List.length_replicate]
  refine ⟨?_, ?_, ?_⟩
  · rw [hcount1]; omega
  · rw [hcount1, hcount2]; omega
  · rw [hlen]; omega

/-- C4: the status emoji is the step function of percentage with thresholds
100, 75, 50, 25: each band maps to its documented emoji. -/
theorem status_emoji_step_function (p : ℚ) :
    (100 ≤ p → get_status_emoji p = "✅") ∧
    (75 ≤ p → p < 100 → get_status_emoji p = "🟢") ∧
    (50 ≤ p → p < 75 → get_status_emoji p = "🟡") ∧
    (25 ≤ p → p < 50 → get_status_emoji p = "🟠") ∧
    (p < 25 → get_status_emoji p = "🔴") := by
  refine ⟨?_, ?_, ?_, ?_, ?_⟩ <;> intros <;>
    simp only [get_status_emoji, ge_iff_le] <;>
    split_ifs <;> first | rfl | linarith

/-- Witness for C3 at the spec's example: width 20 and percentage 37.5 give
7 filled and 13 empty cells. -/
theorem progress_bar_cell_counts_witness :
    (0 : ℚ) ≤ 75 / 2 ∧ (75 / 2 : ℚ) ≤ 100 ∧ 0 < 20 ∧
    ((((create_progress_bar (75 / 2 : ℚ) 20).toList.count filled_char : ℤ) =
        ⌊(75 / 2 : ℚ) / 100 * ((20 : ℕ) : ℚ)⌋) ∧
      (create_progress_bar (75 / 2 : ℚ) 20).toList.count filled_char +
        (create_progress_bar (75 / 2 : ℚ) 20).toList.count empty_char = 20 ∧
      (create_progress_bar (75 / 2 : ℚ) 20).length = 20) ∧
    (create_progress_bar (75 / 2 : ℚ) 20).toList.count filled_char = 7 ∧
    (create_progress_bar (75 / 2 : ℚ) 20).toList.count empty_char = 13 := by
  have happ := progress_bar_cell_counts (75 / 2) 20 (by norm_num) (by norm_num) (by norm_num)
  have h7 : ⌊(75 / 2 : ℚ) / 100 * ((20 : ℕ) : ℚ)⌋ = (7 : ℤ) := by norm_num
  have hfc : (create_progress_bar (75 / 2 : ℚ) 20).toList.count filled_char = 7 := by
    have h1 := happ.1
    rw [h7] at h1
    omega
  have hec : (create_progress_bar (75 / 2 : ℚ) 20).toList.count empty_char = 13 := by
    have h2 := happ.2.1
    omega
  exact ⟨by norm_num, by norm_num, by norm_num, happ, hfc, hec⟩

/-- Witness for C4 at the boundary values 100, 99, 75, 74, 50, 49, 25, 24. -/
theorem status_emoji_step_function_witness :
    get_status_emoji 100 = "✅" ∧ get_status_emoji 99 = "🟢" ∧
    get_status_emoji 75 = "🟢" ∧ get_status_emoji 74 = "🟡" ∧
    get_status_emoji 50 = "🟡" ∧ get_status_emoji 49 = "🟠" ∧
    get_status_emoji 25 = "🟠" ∧ get_status_emoji 24 = "🔴" :=
  ⟨(status_emoji_step_function 100).1 (by norm_num),
   (status_emoji_step_function 99).2.1 (by norm_num) (by norm_num),
   (status_emoji_step_function 75).2.1 (by norm_num) (by norm_num),
   (status_emoji_step_function 74).2.2.1 (by norm_num) (by norm_num),
   (status_emoji_step_function 50).2.2.1 (by norm_num) (by norm_num),
   (status_emoji_step_function 49).2.2.2.1 (by norm_num) (by norm_num),
   (status_emoji_step_function 25).2.2.2.1 (by norm_num) (by norm_num),
   (status_emoji_step_function 24).2.2.2.2 (by norm_num)⟩

/-- C1 counterexample: with 3 groups of which one fetch failed (successful
percentages 50 and 100), the summary's average is 50, not the mean 75 of the
two successful percentages, and the total count is 3, not 2: the claim's
exclusion of failed fetches from the average divisor and from the total count
is false of the code. -/
theorem summary_average_counterexample :
    summary_avg three_groups_one_failed = 50 ∧
    ((50 : ℚ) + 100) / 2 = 75 ∧
    summary_avg three_groups_one_failed ≠ ((50 : ℚ) + 100) / 2 ∧
    summary_total three_groups_one_failed = 3 ∧
    summary_total three_groups_one_failed ≠ 2 := by
  have havg : summary_avg three_groups_one_failed = 50 := by
    unfold summary_avg summary_success_sum summary_total three_groups_one_failed
    norm_num [sample_data]
  refine ⟨havg, by norm_num, ?_, rfl, by decide⟩
  rw [havg]
  norm_num

/-- C1 amended: the summary's average is the sum of the successful
percentages divided by the count of all pairs (failed fetches included), the
total count includes failed fetches, and only the completed count is
restricted to successful fetches; for 3 groups with exactly one failed fetch
the average is the successful sum divided by 3. -/
theorem summary_average_divides_by_total_count
    (p1 p2 p3 : ProjectConfig) (d1 d2 : MilestoneData) :
    summary_avg [(p1, some d1), (p2, some d2), (p3, none)] =
      (d1.progress_percentage + d2.progress_percentage) / 3 ∧
    summary_total [(p1, some d1), (p2, some d2), (p3, none)] = 3 ∧
    summary_completed [(p1, some d1), (p2, some d2), (p3, none)] =
      (if 100 ≤ d1.progress_percentage then 1 else 0) +
        (if 100 ≤ d2.progress_percentage then 1 else 0) := by
  refine ⟨?_, rfl, ?_⟩
  · unfold summary_avg summary_success_sum summary_total
    norm_num
  · unfold summary_completed
    by_cases h1 : 100 ≤ d1.progress_percentage <;>
      by_cases h2 : 100 ≤ d2.progress_percentage <;>
        simp [List.countP_cons, h1, h2]

/-- C10: on the empty pair list the summary computation is total: the guard
on the zero pair count makes the average 0 rather than a division error, and
the builder returns the well-formed header/section/divider triple reporting
total 0, completed 0 and average 0.0%. -/
theorem summary_blocks_empty_input (now : DateTimeFields) :
    summary_total [] = 0 ∧ summary_completed [] = 0 ∧ summary_avg [] = 0 ∧
    create_summary_blocks now [] =
      [header_of "Milestone Summary",
       J.obj [("type", J.str "section"),
              ("fields", J.arr
                [mrkdwn "*Total Milestones:* 0",
                 mrkdwn "*Completed:* 0",
                 mrkdwn "*Average Progress:* 0.0%",
                 mrkdwn ("*Report Date:* " ++ format_date_long now)])],
       divider] := by
  have havg : summary_avg [] = 0 := rfl
  have hround : round_half_even (0 : ℚ) = 0 := by
    unfold round_half_even
    norm_num
  have hfmt : format_one_decimal (summary_avg []) = "0.0" := by
    rw [havg]
    simp only [format_one_decimal]
    rw [show ((0 : ℚ) * 10) = 0 by norm_num, hround]
    rfl
  refine ⟨rfl, rfl, havg, ?_⟩
  unfold create_summary_blocks
  rw [hfmt]
  rfl

/-- C7: every discovered group's color follows the three-way rule: state
`"closed"` gives the completed color `#28a745`; otherwise zero open issues
gives the pending color `#ffc107`; otherwise the active color `#007bff`. -/
theorem discovery_color_three_way_rule (owner repo : String)
    (ms : List MilestoneListing) (i : ℕ) (m : MilestoneListing)
    (hm : ms[i]? = some m) :
    ∃ cfg, ((discover_all_milestones owner repo (Except.ok ms)).1)[i]? = some cfg ∧
      (m.state = "closed" → cfg.color = "#28a745") ∧
      (m.state ≠ "closed" → m.open_issues = 0 → cfg.color = "#ffc107") ∧
      (m.state ≠ "closed" → m.open_issues ≠ 0 → cfg.color = "#007bff") := by
  refine ⟨discovered_config owner repo i m, ?_, ?_, ?_, ?_⟩
  · show (List.map _ ms.enum)[i]? = _
    rw [List.getElem?_map, List.getElem?_enum, hm]
    rfl
  · intro hclosed
    simp [discovered_config, assign_color, hclosed]
  · intro hopen hzero
    simp [discovered_config, assign_color, hopen, hzero]
  · intro hopen hnz
    simp [discovered_config, assign_color, hopen, hnz]

/-- Witness for C7: a one-element listing in the open state with open issues
remaining is assigned the active color. -/
theorem discovery_color_three_way_rule_witness :
    ([⟨"M1", 1, "open", 2⟩] : List MilestoneListing)[0]? = some ⟨"M1", 1, "open", 2⟩ ∧
    ∃ cfg,
      ((discover_all_milestones "leyangloh" "FakeProgress"
          (Except.ok [⟨"M1", 1, "open", 2⟩])).1)[0]? = some cfg ∧
      ((⟨"M1", 1, "open", 2⟩ : MilestoneListing).state = "closed" →
        cfg.color = "#28a745") ∧
      ((⟨"M1", 1, "open", 2⟩ : MilestoneListing).state ≠ "closed" →
        (⟨"M1", 1, "open", 2⟩ : MilestoneListing).open_issues = 0 →
        cfg.color = "#ffc107") ∧
      ((⟨"M1", 1, "open", 2⟩ : MilestoneListing).state ≠ "closed" →
        (⟨"M1", 1, "open", 2⟩ : MilestoneListing).open_issues ≠ 0 →
        cfg.color = "#007bff") :=
  ⟨rfl, discovery_color_three_way_rule "leyangloh" "FakeProgress"
    [⟨"M1", 1, "open", 2⟩] 0 ⟨"M1", 1, "open", 2⟩ rfl⟩

/-- C8: the per-group block builder is deterministic: two calls with
identical `(group, snapshot)` inputs produce identical block lists; the
output depends only on the two arguments. -/
theorem project_block_deterministic (p1 p2 : ProjectConfig)
    (d1 d2 : MilestoneData) (hp : p1 = p2) (hd : d1 = d2) :
    create_project_block p1 d1 = create_project_block p2 d2 := by
  rw [hp, hd]

/-- Witness for C8 at a concrete group and snapshot. -/
theorem project_block_deterministic_witness :
    sample_project "A" = sample_project "A" ∧
    sample_data 50 = sample_data 50 ∧
    create_project_block (sample_project "A") (sample_data 50) =
      create_project_block (sample_project "A") (sample_data 50) :=
  ⟨rfl, rfl,
   project_block_deterministic (sample_project "A") (sample_project "A")
     (sample_data 50) (sample_data 50) rfl rfl⟩

/-- C9: when discovery yields an empty group list (including the recovered
failure that collapses to an empty list), the run returns right after
logging: no pair is fetched, no block is assembled, and delivery is never
invoked. -/
theorem empty_discovery_returns_early (now : DateTimeFields)
    (owner repo channel : String)
    (discoResp : Except String (List MilestoneListing))
    (fetchResp : ProjectConfig → Except String RawMilestone)
    (slackResp : Except String SlackResult)
    (hempty : (discover_all_milestones owner repo discoResp).1 = []) :
    (generate_weekly_report now owner repo channel discoResp fetchResp
        slackResp).pairs = [] ∧
    (generate_weekly_report now owner repo channel discoResp fetchResp
        slackResp).blocks = [] ∧
    (generate_weekly_report now owner repo channel discoResp fetchResp
        slackResp).deliveries = [] ∧
    (generate_weekly_report now owner repo channel discoResp fetchResp
        slackResp).ok = none ∧
    "❌ No milestones found in the repository" ∈
      (generate_weekly_report now owner repo channel discoResp fetchResp
        slackResp).log := by
  simp [generate_weekly_report, hempty]

/-- Witness for C9: a failed discovery collapses to the empty list and the
run stops before fetch, formatting and delivery. -/
theorem empty_discovery_returns_early_witness :
    (discover_all_milestones "leyangloh" "FakeProgress"
        (Except.error "network down")).1 = [] ∧
    ((generate_weekly_report sample_now "leyangloh" "FakeProgress" "U123"
        (Except.error "network down") (fun _ => Except.error "x")
        (Except.ok ⟨true, none⟩)).pairs = [] ∧
      (generate_weekly_report sample_now "leyangloh" "FakeProgress" "U123"
        (Except.error "network down") (fun _ => Except.error "x")
        (Except.ok ⟨true, none⟩)).blocks = [] ∧
      (generate_weekly_report sample_now "leyangloh" "FakeProgress" "U123"
        (Except.error "network down") (fun _ => Except.error "x")
        (Except.ok ⟨true, none⟩)).deliveries = [] ∧
      (generate_weekly_report sample_now "leyangloh" "FakeProgress" "U123"
        (Except.error "network down") (fun _ => Except.error "x")
        (Except.ok ⟨true, none⟩)).ok = none ∧
      "❌ No milestones found in the repository" ∈
        (generate_weekly_report sample_now "leyangloh" "FakeProgress" "U123"
          (Except.error "network down") (fun _ => Except.error "x")
          (Except.ok ⟨true, none⟩)).log) :=
  ⟨rfl, empty_discovery_returns_early sample_now "leyangloh" "FakeProgress" "U123"
    (Except.error "network down") (fun _ => Except.error "x")
    (Except.ok ⟨true, none⟩) rfl⟩

lemma mem_dropLast_of_ne_getLast {α : Type} {l : List α} {x b : α}
    (hx : x ∈ l) (hlast : l.getLast? = some b) (hne : x ≠ b) :
    x ∈ l.dropLast := by
  have hnil : l ≠ [] := by
    intro h
    rw [h] at hlast
    exact Option.noConfusion hlast
  have hb : b = l.getLast hnil := by
    have := List.getLast?_eq_getLast l hnil
    rw [hlast] at this
    exact Option.some.inj this
  have hsplit := List.dropLast_append_getLast hnil
  rw [← hsplit] at hx
  rcases List.mem_append.mp hx with h | h
  · exact h
  · exact absurd (hb ▸ List.mem_singleton.mp h) hne

lemma mem_trim_trailing_divider {x : J} {l : List J}
    (hx : x ∈ l) (hxt : j_type x ≠ some "divider") :
    x ∈ (if ends_with_divider l then l.dropLast else l) := by
  split_ifs with h
  · rw [ends_with_divider] at h
    cases hl : l.getLast? with
    | none => rw [hl] at h; exact absurd h (by simp)
    | some b =>
        rw [hl] at h
        have hbtype : j_type b = some "divider" := by
          simpa using h
        exact mem_dropLast_of_ne_getLast hx hl
          (fun hxb => hxt (hxb ▸ hbtype))
  · exact hx

/-- C6: a failed per-group fetch is caught and logged with the group's name,
returning the absence sentinel; the run keeps every group, pairs the failed
group with `none`, substitutes its error block in the final document, and
still reaches delivery exactly once instead of aborting. -/
theorem fetch_failure_recovered (now : DateTimeFields)
    (owner repo channel e : String)
    (discoResp : Except String (List MilestoneListing))
    (fetchResp : ProjectConfig → Except String RawMilestone)
    (slackResp : Except String SlackResult) (g : ProjectConfig)
    (hgmem : g ∈ (discover_all_milestones owner repo discoResp).1)
    (hgfail : fetchResp g = Except.error e) :
    get_milestone_data (Except.error e) g =
      (none, ["❌ Error fetching milestone data for " ++ g.name ++ ": " ++ e]) ∧
    (generate_weekly_report now owner repo channel discoResp fetchResp
        slackResp).pairs.length =
      (discover_all_milestones owner repo discoResp).1.length ∧
    (g, (none : Option MilestoneData)) ∈
      (generate_weekly_report now owner repo channel discoResp fetchResp
        slackResp).pairs ∧
    error_block g.name ∈
      (generate_weekly_report now owner repo channel discoResp fetchResp
        slackResp).blocks ∧
    (generate_weekly_report now owner repo channel discoResp fetchResp
        slackResp).deliveries.length = 1 := by
  have hnil : (discover_all_milestones owner repo discoResp).1 ≠ [] :=
    List.ne_nil_of_mem hgmem
  have hcond : ((discover_all_milestones owner repo discoResp).1.isEmpty = true) = False := by
    simp [List.isEmpty_iff, hnil]
  simp only [generate_weekly_report, hcond, if_false]
  refine ⟨rfl, List.length_map _ _, ?_, ?_, rfl⟩
  · exact List.mem_map.mpr ⟨g, hgmem, by rw [hgfail]; rfl⟩
  · apply List.mem_append_left
    apply mem_trim_trailing_divider
    · apply List.mem_cons_of_mem
      apply List.mem_append_right
      apply List.mem_flatMap.mpr
      refine ⟨(g, none), List.mem_map.mpr ⟨g, hgmem, by rw [hgfail]; rfl⟩, ?_⟩
      simp [fragment_for]
    · intro hcontra
      simp [j_type, error_block, mrkdwn] at hcontra

/-- Witness for C6: one discovered milestone whose fetch fails with a
network error. -/
theorem fetch_failure_recovered_witness :
    (let cfg : ProjectConfig :=
      ⟨"M1", "leyangloh", "FakeProgress", 1, "🚀", "#007bff"⟩
     cfg ∈ (discover_all_milestones "leyangloh" "FakeProgress"
        (Except.ok [⟨"M1", 1, "open", 2⟩])).1 ∧
     (fun _ : ProjectConfig =>
        (Except.error "boom" : Except String RawMilestone)) cfg
       = Except.error "boom" ∧
     (get_milestone_data (Except.error "boom") cfg =
        (none, ["❌ Error fetching milestone data for " ++ cfg.name ++ ": " ++ "boom"]) ∧
      (generate_weekly_report sample_now "leyangloh" "FakeProgress" "U123"
          (Except.ok [⟨"M1", 1, "open", 2⟩]) (fun _ => Except.error "boom")
          (Except.ok ⟨true, none⟩)).pairs.length =
        (discover_all_milestones "leyangloh" "FakeProgress"
          (Except.ok [⟨"M1", 1, "open", 2⟩])).1.length ∧
      (cfg, (none : Option MilestoneData)) ∈
        (generate_weekly_report sample_now "leyangloh" "FakeProgress" "U123"
          (Except.ok [⟨"M1", 1, "open", 2⟩]) (fun _ => Except.error "boom")
          (Except.ok ⟨true, none⟩)).pairs ∧
      error_block cfg.name ∈
        (generate_weekly_report sample_now "leyangloh" "FakeProgress" "U123"
          (Except.ok [⟨"M1", 1, "open", 2⟩]) (fun _ => Except.error "boom")
          (Except.ok ⟨true, none⟩)).blocks ∧
      (generate_weekly_report sample_now "leyangloh" "FakeProgress" "U123"
          (Except.ok [⟨"M1", 1, "open", 2⟩]) (fun _ => Except.error "boom")
          (Except.ok ⟨true, none⟩)).deliveries.length = 1)) := by
  refine ⟨?_, rfl, ?_⟩
  · decide
  · exact fetch_failure_recovered sample_now "leyangloh" "FakeProgress" "U123" "boom"
      (Except.ok [⟨"M1", 1, "open", 2⟩]) (fun _ => Except.error "boom")
      (Except.ok ⟨true, none⟩) _ (by decide) rfl

/-- C5: delivery returns a result instead of raising: a transport error or a
non-ok acknowledgment yields `false` together with the provider-reported
error string in the log, and a run whose delivery fails reports overall
failure with delivery invoked exactly once (no retry). -/
theorem delivery_failure_reported (channel : String) (blocks : List J)
    (e : String) (ack : SlackResult) (hack : ack.ok = false) :
    send_slack_message (Except.error e) channel blocks =
      (false, ["❌ Error sending Slack message: " ++ e]) ∧
    send_slack_message (Except.ok ack) channel blocks =
      (false, ["❌ Slack API error: " ++ ack.error.getD "Unknown error"]) ∧
    (∀ (now : DateTimeFields) (owner repo ch : String)
       (discoResp : Except String (List MilestoneListing))
       (fetchResp : ProjectConfig → Except String RawMilestone)
       (slackResp : Except String SlackResult),
       (discover_all_milestones owner repo discoResp).1 ≠ [] →
       (∀ ch' blocks', (send_slack_message slackResp ch' blocks').1 = false) →
       (generate_weekly_report now owner repo ch discoResp fetchResp
          slackResp).ok = some false ∧
       (generate_weekly_report now owner repo ch discoResp fetchResp
          slackResp).deliveries.length = 1 ∧
       "❌ Failed to send report." ∈
         (generate_weekly_report now owner repo ch discoResp fetchResp
          slackResp).log) := by
  refine ⟨rfl, ?_, ?_⟩
  · simp [send_slack_message, hack]
  · intro now owner repo ch discoResp fetchResp slackResp hne hfail
    have hcond : ((discover_all_milestones owner repo discoResp).1.isEmpty = true) = False := by
      simp [List.isEmpty_iff, hne]
    simp only [generate_weekly_report, hcond, if_false]
    refine ⟨?_, rfl, ?_⟩
    · rw [hfail]
    · rw [hfail]
      simp

/-- Witness for C5: a run over one discovered milestone whose delivery is
acknowledged with `ok=false`. -/
theorem delivery_failure_reported_witness :
    (SlackResult.mk false (some "invalid_auth")).ok = false ∧
    (discover_all_milestones "leyangloh" "FakeProgress"
        (Except.ok [⟨"M1", 1, "open", 2⟩])).1 ≠ [] ∧
    (∀ ch' blocks',
      (send_slack_message (Except.ok ⟨false, some "invalid_auth"⟩) ch' blocks').1
        = false) ∧
    (send_slack_message (Except.error "timeout") "U123" [] =
      (false, ["❌ Error sending Slack message: " ++ "timeout"]) ∧
     send_slack_message (Except.ok ⟨false, some "invalid_auth"⟩) "U123" [] =
      (false, ["❌ Slack API error: " ++
        (some "invalid_auth").getD "Unknown error"]) ∧
     ((generate_weekly_report sample_now "leyangloh" "FakeProgress" "U123"
        (Except.ok [⟨"M1", 1, "open", 2⟩]) (fun _ => Except.error "boom")
        (Except.ok ⟨false, some "invalid_auth"⟩)).ok = some false ∧
      (generate_weekly_report sample_now "leyangloh" "FakeProgress" "U123"
        (Except.ok [⟨"M1", 1, "open", 2⟩]) (fun _ => Except.error "boom")
        (Except.ok ⟨false, some "invalid_auth"⟩)).deliveries.length = 1 ∧
      "❌ Failed to send report." ∈
        (generate_weekly_report sample_now "leyangloh" "FakeProgress" "U123"
          (Except.ok [⟨"M1", 1, "open", 2⟩]) (fun _ => Except.error "boom")
          (Except.ok ⟨false, some "invalid_auth"⟩)).log)) := by
  have hth := delivery_failure_reported "U123" [] "timeout"
    ⟨false, some "invalid_auth"⟩ rfl
  refine ⟨rfl, by decide, fun ch' blocks' => rfl, hth.1, hth.2.1, ?_⟩
  exact hth.2.2 sample_now "leyangloh" "FakeProgress" "U123"
    (Except.ok [⟨"M1", 1, "open", 2⟩]) (fun _ => Except.error "boom")
    (Except.ok ⟨false, some "invalid_auth"⟩) (by decide)
    (fun ch' blocks' => rfl)

end FakeProgress
